import Mathlib

/-!
Verification of the split-aware data feed and the distributed training
orchestrator of the facebook_ad_classifier repository
(src/classifier/bert_feeder_dataloader.py and
src/classifier/bert_train_parallel.py), as a shallow embedding.

Conventions of the embedding:
* Python floats become `ℚ` (no float rounding is claim-relevant here).
* Python exceptions become `Except` values; a raising computation over a
  mutable object becomes a function returning `Except ε α × State` so that
  the post-raise state stays observable (needed for try/finally semantics).
* The corpus-store dataset (bert_feeder_dataset.py, not part of the two
  source files) appears only through parameters: a length per split and a
  sample list per split. Modelled from the spec: the corpus store exposes
  a sample count per split (spec section 6, length(split) -> int).
-/

namespace FacebookAdClassifier

/-- The three dataset splits, bert_feeder_dataloader.py passim
(split ids are the strings "train", "validate", "test"). -/
inductive SplitId where
  | train
  | validate
  | test
deriving DecidableEq, Repr

/-- Observable state of a BertFeederDataloader together with its wrapped
dataset: `my_split` is set once in the constructor (line 40) and never
written again by any method of the class; `dataset_split` is the wrapped
active split of the wrapped dataset object, the value mutated by
`switch_to_split` (lines 53-54); `cursor` is the iteration
position, advanced by `__next__`. -/
structure FeederState where
  my_split : SplitId
  dataset_split : SplitId
  cursor : ℕ
deriving DecidableEq, Repr

/-- BertFeederDataloader.switch_to_split (lines 53-54): delegates to the
dataset, so it mutates only the active split of the dataset. -/
def switch_to_split (s : FeederState) (split_id : SplitId) : FeederState :=
  { s with dataset_split := split_id }

/-- BertFeederDataloader.curr_split (lines 60-66): returns `self.my_split`
(the delegation to the dataset on line 66 is commented out in the source). -/
def curr_split (s : FeederState) : SplitId :=
  s.my_split

/-- The set_split_id context manager (lines 156-185): saves
`dataloader.curr_split()`, switches to the temporary split, runs the body,
and in a `finally` block switches back to the saved id, so the switch-back
happens both on normal return and when the body raises, in which case the
exception propagates afterwards.  The body receives the switched state and
returns its outcome (a value or a raised exception) with the state it
leaves behind. -/
def set_split_id {ε α : Type} (dataloader : FeederState) (tmp_split_id : SplitId)
    (body : FeederState → Except ε α × FeederState) : Except ε α × FeederState :=
  let saved_split_id := curr_split dataloader
  let entered := switch_to_split dataloader tmp_split_id
  let outcome_and_state := body entered
  (outcome_and_state.1, switch_to_split outcome_and_state.2 saved_split_id)

/-- BertFeederDataloader.__len__ (lines 87-89): inside
`set_split_id(self, self.my_split)` it returns the length of the wrapped
dataset, which is the number of samples of the currently active split
(not a batch count).  `datasetLen` stands for the per-split
sample count. -/
def feederLen (datasetLen : SplitId → ℕ) (s : FeederState) :
    Except String ℕ × FeederState :=
  set_split_id s s.my_split (fun t => (Except.ok (datasetLen t.dataset_split), t))

/-- BertFeederDataloader.__getitem__ (lines 95-97): indexes the dataset
relative to the active split, under `set_split_id(self, self.my_split)`;
an out-of-range index raises. -/
def feederGetItem {α : Type} (data : SplitId → List α) (indx : ℕ) (s : FeederState) :
    Except String α × FeederState :=
  set_split_id s s.my_split (fun t =>
    match (data t.dataset_split).get? indx with
    | some item => (Except.ok item, t)
    | none => (Except.error "IndexError", t))

/-- BertFeederDataloader.__next__ (lines 110-112): pulls the next batch
relative to the active split, under `set_split_id(self, self.my_split)`,
advancing the iteration cursor; exhaustion raises StopIteration. -/
def feederNext {α : Type} (data : SplitId → List α) (s : FeederState) :
    Except String α × FeederState :=
  set_split_id s s.my_split (fun t =>
    match (data t.dataset_split).get? t.cursor with
    | some item => (Except.ok item, { t with cursor := t.cursor + 1 })
    | none => (Except.error "StopIteration", t))

/-! ## bert_train_parallel.py: BertTrainer -/

/-- Device number standing for the CPU, bert_train_parallel.py line 113. -/
def CPU_DEV : Int := -1

/-- The specialty exceptions of bert_train_parallel.py lines 52-57:
NoGPUAvailable and TrainError, each carrying the message it was raised
with. -/
inductive TrainerErr where
  | noGPUAvailable (msg : String)
  | trainError (msg : String)
deriving DecidableEq, Repr

/-- Instantaneous memory readings of a GPUtil GPU object (`self.gpu_obj`),
used by history_checkpoint. -/
structure GPUInfo where
  memoryFree : ℚ
  memoryUsed : ℚ
deriving DecidableEq, Repr

/-- One entry of `self.gpu_status_history`, the dict built in the (dead)
tail of history_checkpoint, lines 1312-1319. -/
structure GPUStatusSnapshot where
  epoch_num : ℕ
  sample_counter : ℕ
  process_moment : String
  gpu_free_memory : ℚ
  gpu_memory_used : ℚ
deriving DecidableEq, Repr

/-- BertTrainer.history_checkpoint (lines 1307-1319).  The body starts
with a bare `return` framed by `#**********` comment markers (lines
1308-1310), so control never reaches the append below it: the call leaves
`self.gpu_status_history` exactly as it was.  The append that the dead
code would perform is kept here as a comment:
  history ++ [⟨epoch_num, sample_counter, process_moment,
              gpu_obj.memoryFree, gpu_obj.memoryUsed⟩] -/
def history_checkpoint (gpu_obj : GPUInfo) (gpu_status_history : List GPUStatusSnapshot)
    (epoch_num sample_counter : ℕ) (process_moment : String) : List GPUStatusSnapshot :=
  gpu_status_history

/-- Result of BertTrainer.enable_GPU: the returned device id (`CPU_DEV`
for the CPU) and the device the process was bound to via
`cuda.set_device`, when that call was made (line 459). -/
structure GPUSel where
  device : Int
  bound_device : Option ℕ
deriving DecidableEq, Repr

/-- BertTrainer.enable_GPU (lines 414-492).  `installed_gpus` is the
count returned by GPUtil.getGPUs(); `first_available` is the outcome of
GPUtil.getFirstAvailable() under the default occupancy thresholds (none
when that call raises because every installed device is busy). -/
def enable_GPU (installed_gpus : ℕ) (local_rank : Option ℕ)
    (first_available : Option ℕ) (raise_gpu_unavailable : Bool) :
    Except TrainerErr GPUSel :=
  if installed_gpus = 0 then
    -- line 446-447: no GPU on the host, CPU sentinel unconditionally
    Except.ok ⟨CPU_DEV, none⟩
  else
    match local_rank with
    | some rank =>
        -- lines 452-462: explicit request must succeed or fail loudly
        if installed_gpus < rank + 1 then
          Except.error (TrainerErr.noGPUAvailable
            ("Request to use GPU " ++ toString rank ++ ", but only "
              ++ toString installed_gpus ++ " available on this machine."))
        else
          Except.ok ⟨(rank : Int), some rank⟩
    | none =>
        -- lines 469-492: first device under the occupancy thresholds
        match first_available with
        | some device_id => Except.ok ⟨(device_id : Int), none⟩
        | none =>
            if raise_gpu_unavailable then
              Except.error (TrainerErr.noGPUAvailable
                "Even though GPUs are installed, all are already in use.")
            else
              Except.ok ⟨CPU_DEV, none⟩

/-- The four distributed-identity environment variables read in
BertTrainer.__init__ lines 226-229; `none` stands for a variable that the
process environment does not define. -/
structure DistEnv where
  node_rank : Option Int
  world_size : Option Int
  master_addr : Option String
  master_port : Option String
deriving DecidableEq, Repr

/-- The internalized identity values after BertTrainer.__init__ lines
226-245: what init_process_group is subsequently run with. -/
structure DistIdentity where
  node_rank : Int
  world_size : Int
  master_addr : String
  master_port : String
deriving DecidableEq, Repr

/-- The message of the TrainError raised at lines 247-253 when one of the
four identity variables is missing: it names the missing variable. -/
def missingVarMsg (var_name : String) : String :=
  "\nEnvironment variable " ++ (var_name ++
    (" not set.\nRANK, WORLD_SIZE, MASTER_ADDR, and MASTER_PORT\n"
      ++ "must be set.\nMaybe use launch.py to run this script?"))

/-- BertTrainer.__init__ lines 225-253, the body of the try block: read
NODE_RANK, WORLD_SIZE, MASTER_ADDR and MASTER_PORT in that order — the
first missing one raises KeyError, turned into a TrainError naming it —
then, when the script was not started through launch.py, override the
rank to 0, the world size to 1 and the master address to the loopback
address (lines 236-245), so that the later blocking rendezvous cannot
wait for peers that will never start. -/
def readDistIdentity (env : DistEnv) (started_from_launch : Bool) :
    Except TrainerErr DistIdentity :=
  match env.node_rank with
  | none => Except.error (TrainerErr.trainError (missingVarMsg "NODE_RANK"))
  | some node_rank =>
    match env.world_size with
    | none => Except.error (TrainerErr.trainError (missingVarMsg "WORLD_SIZE"))
    | some world_size =>
      match env.master_addr with
      | none => Except.error (TrainerErr.trainError (missingVarMsg "MASTER_ADDR"))
      | some master_addr =>
        match env.master_port with
        | none => Except.error (TrainerErr.trainError (missingVarMsg "MASTER_PORT"))
        | some master_port =>
          if started_from_launch then
            Except.ok ⟨node_rank, world_size, master_addr, master_port⟩
          else
            Except.ok ⟨0, 1, "127.0.0.1", master_port⟩

/-- BertTrainer.__init__ lines 218-259: the distributed setup runs (and
init_process_group is then invoked with the resulting identity) only when
a GPU device was selected and a local rank exists; otherwise the world
size is taken to be 1 and no rendezvous happens (`none`). -/
def setup_distributed (gpu_device : Int) (local_rank : Option ℕ) (env : DistEnv)
    (started_from_launch : Bool) : Except TrainerErr (Option DistIdentity) :=
  if gpu_device ≠ CPU_DEV ∧ local_rank ≠ none then
    (readDistIdentity env started_from_launch).map some
  else
    Except.ok none

/-- What one pass of the train/validate loop body observes about a batch
once the opaque model call returns: the scalar loss (train_loss.item())
and the accuracy score self.accuracy(logits, b_labels) computed from its
logits. -/
structure BatchResult where
  loss : ℚ
  acc : ℚ
deriving DecidableEq, Repr

/-- The per-batch loop of BertTrainer.train_one_epoch (lines 715-832):
for each batch, when a GPU is in use, history_checkpoint is called at the
four moments pre_model_call, post_model_call, post_model_freeing and
post_optimizer; the running accuracy (line 779) and loss (line 789) sums
grow by the batch values; the gradient clipping, optimizer step and
scheduler step mutate only the opaque model state.  Returns the two
running sums and the final gpu_status_history. -/
def trainLoop (gpu_device : Int) (gpu_obj : GPUInfo) (epoch_i : ℕ) :
    List BatchResult → ℕ → ℚ → ℚ → List GPUStatusSnapshot →
      ℚ × ℚ × List GPUStatusSnapshot
  | [], _, total_train_loss, total_train_accuracy, history =>
      (total_train_loss, total_train_accuracy, history)
  | batch :: rest, sample_counter, total_train_loss, total_train_accuracy, history =>
      let h1 := if gpu_device ≠ CPU_DEV then
                  history_checkpoint gpu_obj history epoch_i sample_counter "pre_model_call"
                else history
      let h2 := if gpu_device ≠ CPU_DEV then
                  history_checkpoint gpu_obj h1 epoch_i sample_counter "post_model_call"
                else h1
      let h3 := if gpu_device ≠ CPU_DEV then
                  history_checkpoint gpu_obj h2 epoch_i sample_counter "post_model_freeing"
                else h2
      let h4 := if gpu_device ≠ CPU_DEV then
                  history_checkpoint gpu_obj h3 epoch_i sample_counter "post_optimizer"
                else h3
      trainLoop gpu_device gpu_obj epoch_i rest (sample_counter + 1)
        (total_train_loss + batch.loss) (total_train_accuracy + batch.acc) h4

/-- BertTrainer.train_one_epoch (lines 697-850): run the batch loop with
both running sums starting at 0.0 and gpu_status_history freshly reset to
[] (line 655 in train), then report the averages
  total / len(self.train_dataloader)
(lines 835-836).  `train_dataloader_len` is the value of
len(self.train_dataloader), which by BertFeederDataloader.__len__ is the
sample count of the train split.  When that length is 0 the division
raises ZeroDivisionError, which the except clause (lines 838-848) wraps
into a TrainError.  Also returns the final gpu_status_history. -/
def train_one_epoch (gpu_device : Int) (gpu_obj : GPUInfo) (batches : List BatchResult)
    (train_dataloader_len : ℕ) (epoch_i : ℕ) :
    Except TrainerErr (ℚ × ℚ) × List GPUStatusSnapshot :=
  let looped := trainLoop gpu_device gpu_obj epoch_i batches 0 0 0 []
  let total_train_loss := looped.1
  let total_train_accuracy := looped.2.1
  let history := looped.2.2
  if train_dataloader_len = 0 then
    (Except.error (TrainerErr.trainError
      "During train: ZeroDivisionError(division by zero)"), history)
  else
    (Except.ok (total_train_loss / (train_dataloader_len : ℚ),
                total_train_accuracy / (train_dataloader_len : ℚ)), history)

/-- A loss value as the validate pass reports it: a finite float or
np.inf. -/
inductive LossVal where
  | fin (val : ℚ)
  | inf
deriving DecidableEq, Repr

/-- The per-batch loop of BertTrainer.validate_one_epoch (lines 885-939):
no-gradient forward passes accumulating the running loss (line 921) and
accuracy (line 928) sums exactly as the train loop does. -/
def validateLoop : List BatchResult → ℚ → ℚ → ℚ × ℚ
  | [], total_val_loss, total_val_accuracy => (total_val_loss, total_val_accuracy)
  | batch :: rest, total_val_loss, total_val_accuracy =>
      validateLoop rest (total_val_loss + batch.loss) (total_val_accuracy + batch.acc)

/-- BertTrainer.validate_one_epoch (lines 856-964): when
len(self.val_dataloader) == 0 it logs the degraded condition and returns
(np.inf, 0) before entering the try block (lines 862-865), so nothing can
raise; otherwise it accumulates over the validate batches and reports
  total / len(self.val_dataloader)
(lines 942-943).  The second component collects the log messages the pass
emits. -/
def validate_one_epoch (gpu_device : Int) (batches : List BatchResult)
    (val_dataloader_len : ℕ) (epoch_i : ℕ) :
    Except TrainerErr (LossVal × ℚ) × List String :=
  if val_dataloader_len = 0 then
    (Except.ok (LossVal.inf, 0),
     ["Validation set was empty, because too few samples. No validation done."])
  else
    let sums := validateLoop batches 0 0
    (Except.ok (LossVal.fin (sums.1 / (val_dataloader_len : ℚ)),
                sums.2 / (val_dataloader_len : ℚ)),
     ["Running Validation..."])

/-- One batch of the test loop, already reduced to what the loop keeps:
the class predictions obtained from the logits via logits_to_classes and
the true labels (lines 1027-1031). -/
structure TestBatch where
  preds : List ℕ
  labels : List ℕ
deriving DecidableEq, Repr

/-- The collection loop of BertTrainer.test (lines 995-1031): extends
all_predictions and all_labels with each batch. -/
def testCollect : List TestBatch → List ℕ → List ℕ → List ℕ × List ℕ
  | [], all_predictions, all_labels => (all_predictions, all_labels)
  | batch :: rest, all_predictions, all_labels =>
      testCollect rest (all_predictions ++ batch.preds) (all_labels ++ batch.labels)

/-- BertTrainer.test (lines 969-1054): when len(self.test_dataloader) == 0
it logs and returns (None, None) at once (lines 977-980); otherwise it
iterates the test split once in no-gradient mode collecting every
prediction and every true label.  The second component collects the log
messages. -/
def run_test (gpu_device : Int) (batches : List TestBatch) (test_dataloader_len : ℕ) :
    (Option (List ℕ) × Option (List ℕ)) × List String :=
  if test_dataloader_len = 0 then
    ((none, none), ["Test set was empty, because too few samples. No test done."])
  else
    let collected := testCollect batches [] []
    ((some collected.1, some collected.2), ["    DONE applying model to test set."])

/-- Outcome of the TEST / EVALUATE tail of BertTrainer.__init__ (lines
317-328): whether evaluate ran, what test returned, and the log. -/
structure RunTail where
  evaluated : Bool
  predictions : Option (List ℕ)
  true_labels : Option (List ℕ)
  log : List String
deriving DecidableEq, Repr

/-- BertTrainer.__init__ lines 317-328: run test; when its predictions
are None (empty test set) log and return without calling evaluate,
otherwise evaluate the predictions. -/
def test_and_evaluate (gpu_device : Int) (batches : List TestBatch)
    (test_dataloader_len : ℕ) : RunTail :=
  let tested := run_test gpu_device batches test_dataloader_len
  match (tested.1).1 with
  | none =>
      ⟨false, none, (tested.1).2,
       tested.2 ++ ["No performance measures taken, because no predictions available."]⟩
  | some preds => ⟨true, some preds, (tested.1).2, tested.2⟩

/-- The three dataloaders built in BertTrainer.__init__ lines 276-308,
abstracted over the frozen-dataset handles they are constructed over. -/
structure Loaders (α : Type) where
  train_dataloader : α
  val_dataloader : α
  test_dataloader : α
deriving DecidableEq, Repr

/-- BertTrainer.__init__ lines 276-308.  On the CPU path (gpu_device ==
CPU_DEV) the three SqliteDataLoader instances are built over
dataset.train_frozen_dataset, dataset.validate_frozen_dataset and — at
line 287 — again dataset.validate_frozen_dataset; only on the GPU path
are the MultiprocessingDataloader instances built over the train,
validate and test frozen datasets respectively. -/
def build_dataloaders {α : Type} (gpu_device : Int)
    (train_frozen_dataset validate_frozen_dataset test_frozen_dataset : α) :
    Loaders α :=
  if gpu_device = CPU_DEV then
    ⟨train_frozen_dataset, validate_frozen_dataset, validate_frozen_dataset⟩
  else
    ⟨train_frozen_dataset, validate_frozen_dataset, test_frozen_dataset⟩

/-- The averaging rule exactly as claim C1 words it: the running sums of
per-batch loss and per-batch accuracy divided by the number of batches
drawn in the epoch.  Stated from the claim, for comparison with
train_one_epoch, which divides by len(dataloader) instead. -/
def claimed_epoch_averages (batches : List BatchResult) : ℚ × ℚ :=
  ((batches.map BatchResult.loss).sum / (batches.length : ℚ),
   (batches.map BatchResult.acc).sum / (batches.length : ℚ))

/-! ## Helper lemmas -/

/-- The train-epoch batch loop in closed form: it adds the per-batch loss
and accuracy sums to its accumulators and, because history_checkpoint
returns its history argument unchanged, hands back the history it
started from. -/
theorem trainLoop_sums (gpu_device : Int) (gpu_obj : GPUInfo) (epoch_i : ℕ)
    (batches : List BatchResult) :
    ∀ (sample_counter : ℕ) (tl ta : ℚ) (history : List GPUStatusSnapshot),
      trainLoop gpu_device gpu_obj epoch_i batches sample_counter tl ta history
        = (tl + (batches.map BatchResult.loss).sum,
           ta + (batches.map BatchResult.acc).sum, history) := by
  induction batches with
  | nil =>
      intro sample_counter tl ta history
      simp [trainLoop]
  | cons batch rest ih =>
      intro sample_counter tl ta history
      simp only [trainLoop, history_checkpoint, ite_self, List.map_cons, List.sum_cons]
      rw [ih]
      simp [add_assoc]

/-- The validate-epoch batch loop in closed form. -/
theorem validateLoop_sums (batches : List BatchResult) :
    ∀ (tl ta : ℚ),
      validateLoop batches tl ta
        = (tl + (batches.map BatchResult.loss).sum,
           ta + (batches.map BatchResult.acc).sum) := by
  induction batches with
  | nil =>
      intro tl ta
      simp [validateLoop]
  | cons batch rest ih =>
      intro tl ta
      simp only [validateLoop, List.map_cons, List.sum_cons]
      rw [ih]
      simp [add_assoc]

/-! ## The claims -/

/-- C1, counterexample: an epoch drawing two batches (per-batch losses 1
and 3, per-batch accuracies 0 and 1) from a train split of 4 samples
(len(dataloader) = 4, e.g. batch size 2).  The code reports the sums
divided by len(dataloader) = 4, namely (1, 1/4); dividing by the number
of batches drawn, as the claim states, would give (2, 1/2). -/
theorem c1_batch_count_average_counterexample :
    (train_one_epoch CPU_DEV ⟨0, 0⟩ [⟨1, 0⟩, ⟨3, 1⟩] 4 0).1
        = Except.ok ((1 : ℚ), (1 / 4 : ℚ))
    ∧ claimed_epoch_averages [⟨1, 0⟩, ⟨3, 1⟩] = ((2 : ℚ), (1 / 2 : ℚ))
    ∧ ((1 : ℚ), (1 / 4 : ℚ)) ≠ ((2 : ℚ), (1 / 2 : ℚ)) := by
  refine ⟨?_, ?_, ?_⟩
  · norm_num [train_one_epoch, trainLoop, history_checkpoint, CPU_DEV]
  · norm_num [claimed_epoch_averages]
  · norm_num [Prod.ext_iff]

/-- C1, amended: for every train epoch that completes without error (the
dataloader length is a nonzero n + 1), the reported average training loss
and accuracy are the running sums of per-batch loss and per-batch
accuracy divided by len(dataloader) — which, per
BertFeederDataloader.__len__, is the sample count of the split, not the
number of batches drawn — and the validate pass averages identically. -/
theorem c1_epoch_averages_divide_by_loader_length (gpu_device : Int) (gpu_obj : GPUInfo)
    (train_batches val_batches : List BatchResult) (n m epoch_i : ℕ)
    (datasetLen : SplitId → ℕ) (s : FeederState) :
    (train_one_epoch gpu_device gpu_obj train_batches (n + 1) epoch_i).1
        = Except.ok ((train_batches.map BatchResult.loss).sum / ((n + 1 : ℕ) : ℚ),
                     (train_batches.map BatchResult.acc).sum / ((n + 1 : ℕ) : ℚ))
    ∧ (validate_one_epoch gpu_device val_batches (m + 1) epoch_i).1
        = Except.ok (LossVal.fin ((val_batches.map BatchResult.loss).sum / ((m + 1 : ℕ) : ℚ)),
                     (val_batches.map BatchResult.acc).sum / ((m + 1 : ℕ) : ℚ))
    ∧ (feederLen datasetLen s).1 = Except.ok (datasetLen s.my_split) := by
  refine ⟨?_, ?_, rfl⟩
  · simp [train_one_epoch, trainLoop_sums]
  · simp [validate_one_epoch, validateLoop_sums]

/-- C2: set_split_id switches the feed to the temporary split for the
duration of the body and, whenever the active split of the dataset agrees
with curr_split() at entry (the steady state every feeder operation
maintains, see C10), restores the original split of the feed on every
exit path: the outcome of the body — its value, or the exception it
raised, which is then re-raised — passes through unchanged while the
switch-back always happens. -/
theorem c2_scoped_split_restores {α : Type} (s : FeederState) (tmp_split_id : SplitId)
    (body : FeederState → Except String α × FeederState)
    (h : s.dataset_split = curr_split s) :
    (set_split_id s tmp_split_id body).1 = (body (switch_to_split s tmp_split_id)).1
    ∧ (switch_to_split s tmp_split_id).dataset_split = tmp_split_id
    ∧ ((set_split_id s tmp_split_id body).2).dataset_split = s.dataset_split := by
  refine ⟨rfl, rfl, ?_⟩
  simp only [set_split_id, switch_to_split, curr_split] at h ⊢
  exact h.symm

/-- C2, witness: a raising body, run with temporary split validate on a
feed constructed for train; the error passes through and the split is
back to train afterwards. -/
theorem c2_scoped_split_witness :
    (set_split_id ⟨SplitId.train, SplitId.train, 0⟩ SplitId.validate
        (fun t => ((Except.error "boom" : Except String ℕ), t))).1
      = ((fun t => ((Except.error "boom" : Except String ℕ), t))
          (switch_to_split ⟨SplitId.train, SplitId.train, 0⟩ SplitId.validate)).1
    ∧ (switch_to_split (⟨SplitId.train, SplitId.train, 0⟩ : FeederState)
        SplitId.validate).dataset_split = SplitId.validate
    ∧ ((set_split_id ⟨SplitId.train, SplitId.train, 0⟩ SplitId.validate
        (fun t => ((Except.error "boom" : Except String ℕ), t))).2).dataset_split
      = (⟨SplitId.train, SplitId.train, 0⟩ : FeederState).dataset_split :=
  c2_scoped_split_restores ⟨SplitId.train, SplitId.train, 0⟩ SplitId.validate
    (fun t => ((Except.error "boom" : Except String ℕ), t)) rfl

/-- C3, behaviour of the code as written: history_checkpoint returns its
history unchanged for every input — the bare return at line 1309 stands
before the append — so a whole train epoch ends with an empty
gpu_status_history even when an accelerator is active and all four
checkpoint call sites run. -/
theorem c3_checkpoint_appends_nothing :
    (∀ (gpu_obj : GPUInfo) (history : List GPUStatusSnapshot)
        (epoch_num sample_counter : ℕ) (process_moment : String),
        history_checkpoint gpu_obj history epoch_num sample_counter process_moment
          = history)
    ∧ (∀ (gpu_device : Int) (gpu_obj : GPUInfo) (batches : List BatchResult)
        (train_dataloader_len epoch_i : ℕ),
        (train_one_epoch gpu_device gpu_obj batches train_dataloader_len epoch_i).2
          = []) := by
  refine ⟨fun _ _ _ _ _ => rfl, fun gpu_device gpu_obj batches n epoch_i => ?_⟩
  by_cases hn : n = 0 <;> simp [train_one_epoch, trainLoop_sums, hn]

/-- C4: in multi-process mode (a GPU device selected and a local rank
present), a missing identity variable makes the initialization fail with
the configuration error of lines 247-253, whose message names the (first)
missing variable; the named variable is indeed missing. -/
theorem c4_missing_identity_raises_config_error (gpu_device : Int) (rank : ℕ)
    (env : DistEnv) (started_from_launch : Bool) (hg : gpu_device ≠ CPU_DEV)
    (hmiss : env.node_rank = none ∨ env.world_size = none
      ∨ env.master_addr = none ∨ env.master_port = none) :
    ∃ var_name : String,
      ((var_name = "NODE_RANK" ∧ env.node_rank = none)
        ∨ (var_name = "WORLD_SIZE" ∧ env.world_size = none)
        ∨ (var_name = "MASTER_ADDR" ∧ env.master_addr = none)
        ∨ (var_name = "MASTER_PORT" ∧ env.master_port = none))
      ∧ setup_distributed gpu_device (some rank) env started_from_launch
          = Except.error (TrainerErr.trainError (missingVarMsg var_name))
      ∧ missingVarMsg var_name
          = "\nEnvironment variable " ++ (var_name ++
              (" not set.\nRANK, WORLD_SIZE, MASTER_ADDR, and MASTER_PORT\n"
                ++ "must be set.\nMaybe use launch.py to run this script?")) := by
  have hcond : gpu_device ≠ CPU_DEV ∧ (some rank : Option ℕ) ≠ none :=
    ⟨hg, by simp⟩
  rcases env with ⟨nr, ws, ma, mp⟩
  cases nr with
  | none =>
      exact ⟨"NODE_RANK", Or.inl ⟨rfl, rfl⟩,
        by rw [setup_distributed, if_pos hcond]; rfl, rfl⟩
  | some nrv =>
  cases ws with
  | none =>
      exact ⟨"WORLD_SIZE", Or.inr (Or.inl ⟨rfl, rfl⟩),
        by rw [setup_distributed, if_pos hcond]; rfl, rfl⟩
  | some wsv =>
  cases ma with
  | none =>
      exact ⟨"MASTER_ADDR", Or.inr (Or.inr (Or.inl ⟨rfl, rfl⟩)),
        by rw [setup_distributed, if_pos hcond]; rfl, rfl⟩
  | some mav =>
  cases mp with
  | none =>
      exact ⟨"MASTER_PORT", Or.inr (Or.inr (Or.inr ⟨rfl, rfl⟩)),
        by rw [setup_distributed, if_pos hcond]; rfl, rfl⟩
  | some mpv =>
      simp at hmiss

/-- C4, witness: the spec scenario — MASTER_ADDR missing while the other
three identity values are set, on device 0 with local rank 0. -/
theorem c4_missing_master_addr_witness :
    ∃ var_name : String,
      ((var_name = "NODE_RANK"
          ∧ (⟨some 0, some 3, none, some "5678"⟩ : DistEnv).node_rank = none)
        ∨ (var_name = "WORLD_SIZE"
          ∧ (⟨some 0, some 3, none, some "5678"⟩ : DistEnv).world_size = none)
        ∨ (var_name = "MASTER_ADDR"
          ∧ (⟨some 0, some 3, none, some "5678"⟩ : DistEnv).master_addr = none)
        ∨ (var_name = "MASTER_PORT"
          ∧ (⟨some 0, some 3, none, some "5678"⟩ : DistEnv).master_port = none))
      ∧ setup_distributed 0 (some 0) ⟨some 0, some 3, none, some "5678"⟩ true
          = Except.error (TrainerErr.trainError (missingVarMsg var_name))
      ∧ missingVarMsg var_name
          = "\nEnvironment variable " ++ (var_name ++
              (" not set.\nRANK, WORLD_SIZE, MASTER_ADDR, and MASTER_PORT\n"
                ++ "must be set.\nMaybe use launch.py to run this script?")) :=
  c4_missing_identity_raises_config_error 0 0 ⟨some 0, some 3, none, some "5678"⟩ true
    (by decide) (Or.inr (Or.inr (Or.inl rfl)))

/-- C5: when the script was not started through the launcher yet a world
size greater than one is configured (all four identity values present),
the identity that the later rendezvous runs with is world size 1, rank 0
and the loopback master address. -/
theorem c5_manual_launch_degrades_to_single_process (env : DistEnv) (nr ws : Int)
    (ma mp : String) (h1 : env.node_rank = some nr) (h2 : env.world_size = some ws)
    (h3 : env.master_addr = some ma) (h4 : env.master_port = some mp)
    (hws : 1 < ws) :
    readDistIdentity env false = Except.ok ⟨0, 1, "127.0.0.1", mp⟩ := by
  rcases env with ⟨a, b, c, d⟩
  subst h1; subst h2; subst h3; subst h4
  rfl

/-- C5, witness: a configured world size of 4, not started from the
launcher. -/
theorem c5_degradation_witness :
    readDistIdentity ⟨some 1, some 4, some "10.0.0.5", some "5678"⟩ false
      = Except.ok ⟨0, 1, "127.0.0.1", "5678"⟩ :=
  c5_manual_launch_degrades_to_single_process
    ⟨some 1, some 4, some "10.0.0.5", some "5678"⟩ 1 4 "10.0.0.5" "5678"
    rfl rfl rfl rfl (by norm_num)

/-- C6: with at least one installed accelerator and an explicit device
rank requested, enable_GPU fails with NoGPUAvailable exactly when the
rank is not below the device count, and otherwise binds the process to
that device and returns its handle; in neither case does it return the
CPU sentinel. -/
theorem c6_explicit_rank_validated (installed_gpus rank : ℕ) (first_available : Option ℕ)
    (raise_gpu_unavailable : Bool) (hg : 0 < installed_gpus) :
    (enable_GPU installed_gpus (some rank) first_available raise_gpu_unavailable
      = if installed_gpus < rank + 1 then
          Except.error (TrainerErr.noGPUAvailable
            ("Request to use GPU " ++ toString rank ++ ", but only "
              ++ toString installed_gpus ++ " available on this machine."))
        else
          Except.ok ⟨(rank : Int), some rank⟩)
    ∧ enable_GPU installed_gpus (some rank) first_available raise_gpu_unavailable
        ≠ Except.ok ⟨CPU_DEV, none⟩ := by
  have hne : installed_gpus ≠ 0 := Nat.pos_iff_ne_zero.mp hg
  constructor
  · simp [enable_GPU, hne]
  · by_cases hr : installed_gpus < rank + 1 <;> simp [enable_GPU, hne, hr]

/-- C6, witness: the spec scenario — requesting device rank 3 when only
2 devices exist. -/
theorem c6_explicit_rank_witness :
    (enable_GPU 2 (some 3) none true
      = if 2 < 3 + 1 then
          Except.error (TrainerErr.noGPUAvailable
            ("Request to use GPU " ++ toString (3 : ℕ) ++ ", but only "
              ++ toString (2 : ℕ) ++ " available on this machine."))
        else
          Except.ok ⟨((3 : ℕ) : Int), some 3⟩)
    ∧ enable_GPU 2 (some 3) none true ≠ Except.ok ⟨CPU_DEV, none⟩ :=
  c6_explicit_rank_validated 2 3 none true (by norm_num)

/-- C7: when the validate dataloader has length zero, the validate pass
returns loss np.inf and accuracy 0 as a normal (non-raising) result and
logs the degraded condition, for every device and every epoch. -/
theorem c7_empty_validate_split_inf_loss (gpu_device : Int) (batches : List BatchResult)
    (epoch_i : ℕ) :
    validate_one_epoch gpu_device batches 0 epoch_i
      = (Except.ok (LossVal.inf, 0),
         ["Validation set was empty, because too few samples. No validation done."]) :=
  rfl

/-- C8: when the test dataloader has length zero, test returns
(None, None) as a normal (non-raising) result with a log message, and the
caller then logs and returns without running evaluate. -/
theorem c8_empty_test_split_skips_evaluation (gpu_device : Int) (batches : List TestBatch) :
    run_test gpu_device batches 0
      = ((none, none), ["Test set was empty, because too few samples. No test done."])
    ∧ test_and_evaluate gpu_device batches 0
      = ⟨false, none, none,
         ["Test set was empty, because too few samples. No test done.",
          "No performance measures taken, because no predictions available."]⟩ :=
  ⟨rfl, rfl⟩

/-- C9: on the CPU path the test dataloader is constructed over the
frozen validate dataset (line 287), while on the accelerator path it is
constructed over the frozen test dataset; the validate dataloader wraps
the validate dataset on both paths. -/
theorem c9_cpu_test_loader_uses_validate_split {α : Type} (gpu_device : Int)
    (train_frozen_dataset validate_frozen_dataset test_frozen_dataset : α)
    (hgpu : gpu_device ≠ CPU_DEV) :
    (build_dataloaders CPU_DEV train_frozen_dataset validate_frozen_dataset
        test_frozen_dataset).test_dataloader = validate_frozen_dataset
    ∧ (build_dataloaders gpu_device train_frozen_dataset validate_frozen_dataset
        test_frozen_dataset).test_dataloader = test_frozen_dataset
    ∧ (build_dataloaders CPU_DEV train_frozen_dataset validate_frozen_dataset
        test_frozen_dataset).val_dataloader = validate_frozen_dataset := by
  refine ⟨by simp [build_dataloaders], ?_, by simp [build_dataloaders]⟩
  simp [build_dataloaders, hgpu]

/-- C9, witness: device 0 (an accelerator) against the CPU sentinel, with
the three frozen datasets represented by the markers 10, 20, 30. -/
theorem c9_gpu_test_loader_witness :
    (build_dataloaders CPU_DEV (10 : ℕ) 20 30).test_dataloader = 20
    ∧ (build_dataloaders 0 (10 : ℕ) 20 30).test_dataloader = 30
    ∧ (build_dataloaders CPU_DEV (10 : ℕ) 20 30).val_dataloader = 20 :=
  c9_cpu_test_loader_uses_validate_split 0 10 20 30 (by decide)

/-- C10: curr_split always returns the construction-time my_split;
switch_to_split changes only the active split of the dataset and never
my_split; set_split_id therefore saves and restores the construction-time
split, leaving the dataset pointed at my_split whatever its split was at
entry; and each of __len__, __getitem__ and __next__ leaves the active
split of the dataset equal to my_split afterwards, regardless of its
value before the call. -/
theorem c10_curr_split_construction_invariant :
    (∀ s : FeederState, curr_split s = s.my_split)
    ∧ (∀ (s : FeederState) (split_id : SplitId),
        (switch_to_split s split_id).my_split = s.my_split
          ∧ (switch_to_split s split_id).dataset_split = split_id)
    ∧ (∀ (s : FeederState) (tmp_split_id : SplitId)
        (body : FeederState → Except String ℕ × FeederState),
        ((set_split_id s tmp_split_id body).2).dataset_split = s.my_split)
    ∧ (∀ (datasetLen : SplitId → ℕ) (s : FeederState),
        ((feederLen datasetLen s).2).dataset_split = s.my_split)
    ∧ (∀ (data : SplitId → List ℕ) (indx : ℕ) (s : FeederState),
        ((feederGetItem data indx s).2).dataset_split = s.my_split)
    ∧ (∀ (data : SplitId → List ℕ) (s : FeederState),
        ((feederNext data s).2).dataset_split = s.my_split) :=
  ⟨fun _ => rfl, fun _ _ => ⟨rfl, rfl⟩, fun _ _ _ => rfl, fun _ _ => rfl,
   fun _ _ _ => rfl, fun _ _ => rfl⟩

end FacebookAdClassifier
